import Mathlib

/-!
Verification development for the jira-sync-tool repository.

The definitions below are a shallow embedding of `src/jira_clone.py`,
`src/config_manager.py` and `src/jira_ui.py`.  Side effects (network calls,
sleeps, printing) are abstracted into explicit parameters: the outcome of a
wrapped API call is an `Except`, a search is a function from a start offset to
the returned page, and writes are collected into lists so that "no write was
issued" is a provable statement.
-/

namespace JiraSync

/-- The static field-pair table `FIELD_MAPPINGS` of src/jira_clone.py: each
date-typed custom field id is paired with its string-typed twin and vice
versa.  A Python dict with unique keys is embedded as an association list. -/
def FIELD_MAPPINGS : List (String × String) := [
  ("customfield_10015", "customfield_13039"),
  ("customfield_13039", "customfield_10015"),
  ("customfield_11188", "customfield_12652"),
  ("customfield_12652", "customfield_11188"),
  ("customfield_11189", "customfield_12892"),
  ("customfield_12892", "customfield_11189"),
  ("customfield_11186", "customfield_12893"),
  ("customfield_12893", "customfield_11186"),
  ("customfield_10065", "customfield_12588"),
  ("customfield_12588", "customfield_10065"),
  ("customfield_10071", "customfield_12589"),
  ("customfield_12589", "customfield_10071"),
  ("customfield_10064", "customfield_12967"),
  ("customfield_12967", "customfield_10064")]

/-- The `TARGET_DATE_FIELDS` constant: the tracked milestone field names. -/
def TARGET_DATE_FIELDS : List String := [
  "PRD Due Date", "PRD Review Due Date", "Start date", "Code Complete Target",
  "Release candidate Target", "Preview Est. Date", "GA Estimated Date"]

/-- An issue as the sync code sees it: the issue type name
(`issue.fields.issuetype.name`) and the custom-field attributes present on
`issue.fields`, as pairs of field id and the string rendering of the value.
A field id absent from the list models an attribute that is not present. -/
structure Issue where
  issuetype : String := ""
  fields : List (String × String) := []
  deriving DecidableEq, Repr

/-- Three-argument Python `getattr(obj, name, default)`: it yields the
attribute when present and the default otherwise, and it never raises
`AttributeError`.  The `Except Unit` return type keeps the source's
try/except structure visible in `resolve_field_for_issue`. -/
def getattr3 (issue : Issue) (field_id : String) (default : Option String) :
    Except Unit (Option String) :=
  Except.ok ((issue.fields.lookup field_id).orElse (fun _ => default))

/-- `FieldMapper.resolve_field_for_issue` (src/jira_clone.py lines 346-364):
try `getattr(issue.fields, field_id, None)` and return `field_id`; on
`AttributeError` consult `FIELD_MAPPINGS` and try the mapped id; else `None`.
Because the three-argument `getattr` never raises, only the first branch is
ever taken. -/
def resolve_field_for_issue (field_id : String) (issue : Issue) : Option String :=
  match getattr3 issue field_id none with
  | Except.ok _ => some field_id
  | Except.error _ =>
    match FIELD_MAPPINGS.lookup field_id with
    | some mapped_id =>
      match getattr3 issue mapped_id none with
      | Except.ok _ => some mapped_id
      | Except.error _ => none
    | none => none

/-- Substring containment on character lists: `containsSub n h` is Python's
`n in h` for strings. -/
def containsSub (needle : List Char) : List Char → Bool
  | [] => needle.isEmpty
  | c :: rest => needle.isPrefixOf (c :: rest) || containsSub needle rest

/-- The rate-limit test inside `_api_call_with_retry`:
`error_str = str(e).lower()` followed by a containment check for
`"rate limit"`, `"too many requests"` or `"429"`. -/
def is_rate_limit_error (msg : String) : Bool :=
  let error_str := msg.toList.map Char.toLower
  containsSub (("rate limit").toList) error_str ||
    containsSub (("too many requests").toList) error_str ||
    containsSub (("429").toList) error_str

/-- `max_retries = 3` in `_api_call_with_retry`. -/
def max_retries : Nat := 3

/-- Possible outcomes of `_api_call_with_retry`: a returned value, a re-raised
wrapped-call error (`raise e`), or the trailing
`Exception("Max retries (3) exceeded")` placed after the loop. -/
inductive RetryResult (α : Type) where
  | ok (a : α)
  | raised (msg : String)
  | maxRetriesExceeded
  deriving DecidableEq, Repr

/-- The `for attempt in range(max_retries)` loop of `_api_call_with_retry`
(src/jira_clone.py lines 253-277).  `op n` is the outcome of the n-th
invocation (0-based) of the wrapped call; the second component counts the
invocations actually made.  The fuel argument is the number of loop
iterations remaining; running out of fuel is the fall-through past the loop
to the "Max retries exceeded" exception. -/
def retry_loop (op : Nat → Except String α) : Nat → Nat → RetryResult α × Nat
  | _, 0 => (RetryResult.maxRetriesExceeded, 0)
  | attempt, fuel + 1 =>
    match op attempt with
    | Except.ok a => (RetryResult.ok a, 1)
    | Except.error e =>
      if is_rate_limit_error e = true ∧ attempt < max_retries - 1 then
        let r := retry_loop op (attempt + 1) fuel
        (r.1, r.2 + 1)
      else (RetryResult.raised e, 1)

/-- `JiraClient._api_call_with_retry` run from attempt 0 with the loop bound
`max_retries`. -/
def api_call_with_retry (op : Nat → Except String α) : RetryResult α × Nat :=
  retry_loop op 0 max_retries

/-- `JiraClient.update_issue_field` (src/jira_clone.py lines 288-296): fetch
the issue, then update the field; any exception in either step is caught and
turned into `false`, success in both is `true`.  `fetch` is the outcome of
`self.get_issue(issue_key)` and `upd` the outcome of `issue.update(...)`. -/
def update_issue_field (fetch : Except String Issue) (upd : Issue → Except String Unit) : Bool :=
  match fetch with
  | Except.error _ => false
  | Except.ok issue =>
    match upd issue with
    | Except.error _ => false
    | Except.ok _ => true

/-- One entry of the field catalog returned by `self.jira.fields()`: id, name,
the custom flag, and the `schema.type` string (the code's default is
`"unknown"` when the schema carries no type). -/
structure CatalogField where
  id : String
  name : String
  custom : Bool
  schema_type : String
  deriving DecidableEq, Repr

/-- The grouping loop of `FieldMapper.get_field_mapping` restricted to one
name: the catalog entries appended to `field_alternatives[name]`, in catalog
order, are exactly the custom fields with that name when the name is
tracked. -/
def field_alternatives_for (all_fields : List CatalogField) (name : String) :
    List CatalogField :=
  all_fields.filter (fun f => f.custom && f.name == name && TARGET_DATE_FIELDS.contains name)

/-- One value of the map returned by `get_field_mapping`: the chosen primary
id and type, and the ids of the remaining candidates. -/
structure FieldMapEntry where
  id : String
  type : String
  alternatives : List String
  deriving DecidableEq, Repr

/-- The date test of `get_field_mapping`: `f['type'] in ['date', 'datetime']`. -/
def is_date_type (t : String) : Bool := t == "date" || t == "datetime"

/-- The choice step of `FieldMapper.get_field_mapping` (src/jira_clone.py
lines 316-344) for one name: `date_fields` filters the candidates to the
date/datetime-typed ones, `primary = date_fields[0] if date_fields else
alternatives[0]`, and every candidate whose id differs from the primary's id
becomes an alternate.  `none` models a name with no candidates (no key in the
dict). -/
def get_field_mapping_entry (all_fields : List CatalogField) (name : String) :
    Option FieldMapEntry :=
  let alternatives := field_alternatives_for all_fields name
  let date_fields := alternatives.filter (fun f => is_date_type f.schema_type)
  match (if date_fields.isEmpty then alternatives else date_fields).head? with
  | none => none
  | some primary =>
    some ⟨primary.id, primary.schema_type,
      (alternatives.filter (fun f => f.id != primary.id)).map (fun f => f.id)⟩

/-- `s.split(sep)[0]` for a one-character separator: the prefix of `s` before
the first occurrence of `sep` (all of `s` when `sep` does not occur). -/
def py_split_head (sep : Char) (s : List Char) : List Char :=
  s.takeWhile (fun c => c != sep)

/-- `DateFieldProcessor.format_date_string` on the `str()` rendering of the
value: truncate at the first `'T'`; else, when a space occurs, at the first
space; else return the string unchanged. -/
def format_date_string (s : List Char) : List Char :=
  if 'T' ∈ s then py_split_head 'T' s
  else if ' ' ∈ s then py_split_head ' ' s
  else s

/-- Hexadecimal digit in the lowercase alphabet `json.dumps` emits. -/
def hex_digit (n : Nat) : Char :=
  if n < 10 then Char.ofNat (48 + n) else Char.ofNat (87 + (n % 16))

/-- A `\uXXXX` escape for a 16-bit code unit. -/
def u16_escape (n : Nat) : List Char :=
  ['\\', 'u', hex_digit (n / 4096 % 16), hex_digit (n / 256 % 16),
   hex_digit (n / 16 % 16), hex_digit (n % 16)]

/-- The escaping `json.dumps` (default `ensure_ascii=True`) applies to one
character inside a JSON string: the two-character escapes for quote,
backslash and the common control characters, `\uXXXX` for other control or
non-ASCII characters (a surrogate pair above U+FFFF), and the character
itself otherwise. -/
def py_json_escape_char (c : Char) : List Char :=
  if c = '"' then ['\\', '"']
  else if c = '\\' then ['\\', '\\']
  else if c = '\n' then ['\\', 'n']
  else if c = '\r' then ['\\', 'r']
  else if c = '\t' then ['\\', 't']
  else if c = Char.ofNat 8 then ['\\', 'b']
  else if c = Char.ofNat 12 then ['\\', 'f']
  else if c.toNat < 32 ∨ 126 < c.toNat then
    if c.toNat < 65536 then u16_escape c.toNat
    else
      u16_escape (55296 + (c.toNat - 65536) / 1024) ++
        u16_escape (56320 + (c.toNat - 65536) % 1024)
  else [c]

/-- A JSON string literal as `json.dumps` renders it. -/
def py_json_quote (s : List Char) : List Char :=
  '"' :: (s.map py_json_escape_char).flatten ++ ['"']

/-- `json.dumps({"start": a, "end": b})` with the default separators
`", "` and `": "`; dict insertion order puts `start` first. -/
def py_json_dumps_start_end (a b : List Char) : List Char :=
  ('{' :: py_json_quote (("start").toList)) ++ (':' :: ' ' :: py_json_quote a) ++
    (',' :: ' ' :: py_json_quote (("end").toList)) ++ (':' :: ' ' :: py_json_quote b) ++ ['}']

/-- `DateFieldProcessor.format_for_jpd` (src/jira_clone.py lines 377-391):
normalize the date string and serialize `{"start": d, "end": d}`. -/
def format_for_jpd (s : List Char) : List Char :=
  let date_str := format_date_string s
  py_json_dumps_start_end date_str date_str

/-- `max_results = 50` in `get_jpd_ideas_in_project`. -/
def max_results : Nat := 50

/-- The `while True` pagination loop of
`DateFieldCloner.get_jpd_ideas_in_project` (src/jira_clone.py lines 655-699).
`search start_at` is the page the rate-limited search returns at that offset
(each element an issue key, `fields='key,summary'`).  The result pairs the
accumulated keys with the list of `startAt` offsets at which a search call
was issued; `none` models a run that outlives the fuel. -/
def paginate (search : Nat → List String) :
    Nat → Nat → List String → List Nat → Option (List String × List Nat)
  | 0, _, _, _ => none
  | fuel + 1, start_at, all_issues, calls =>
    let issues := search start_at
    let calls := calls ++ [start_at]
    if issues.isEmpty then some (all_issues, calls)
    else
      let all_issues := all_issues ++ issues
      if issues.length < max_results then some (all_issues, calls)
      else paginate search fuel (start_at + max_results) all_issues calls

/-- `get_jpd_ideas_in_project` starts the loop at offset 0 with nothing
accumulated. -/
def get_jpd_ideas_in_project (search : Nat → List String) (fuel : Nat) :
    Option (List String × List Nat) :=
  paginate search fuel 0 [] []

/-- `DateFieldProcessor.is_jpd_issue`: the issue type name is `Idea` (the
try/except around the attribute chain is absorbed by the total model). -/
def is_jpd_issue (issue : Issue) : Bool :=
  issue.issuetype == "Idea"

/-- A field value fetched with `getattr(issue.fields, id, None)` and then
tested for Python truthiness: absence and the empty string are falsy. -/
def truthy_field (issue : Issue) (field_id : String) : Option String :=
  match issue.fields.lookup field_id with
  | none => none
  | some v => if v = "" then none else some v

/-- One entry of the dict built by
`DateFieldProcessor.extract_populated_fields`. -/
structure PopulatedField where
  name : String
  value : String
  source_id : String
  type : String
  deriving DecidableEq, Repr

/-- `DateFieldProcessor.extract_populated_fields`: walk the field mapping in
insertion order and keep the names whose primary id carries a truthy value on
the source issue. -/
def extract_populated_fields (issue : Issue)
    (field_mapping : List (String × FieldMapEntry)) : List PopulatedField :=
  field_mapping.filterMap (fun nm_info =>
    match truthy_field issue nm_info.2.id with
    | some v => some ⟨nm_info.1, v, nm_info.2.id, nm_info.2.type⟩
    | none => none)

/-- The `for alt_id in target_info['alternatives']` loop with `break` inside
`_resolve_target_fields`: the first alternative the resolver accepts. -/
def resolve_alt_list (alts : List String) (target : Issue) : Option String :=
  match alts with
  | [] => none
  | a :: rest =>
    match resolve_field_for_issue a target with
    | some r => some r
    | none => resolve_alt_list rest target

/-- One entry of the dict built by `_resolve_target_fields`: the populated
field together with the resolved target field id. -/
structure CompatibleField where
  name : String
  value : String
  target_id : String
  deriving DecidableEq, Repr

/-- `DateFieldCloner._resolve_target_fields`: for each populated field, for a
JPD target try the alternates first, then the primary; keep the field when a
target id resolved. -/
def resolve_target_fields (populated : List PopulatedField)
    (field_mapping : List (String × FieldMapEntry)) (target : Issue) (is_jpd : Bool) :
    List CompatibleField :=
  populated.filterMap (fun pf =>
    match field_mapping.lookup pf.name with
    | none => none
    | some info =>
      let from_alts :=
        if is_jpd && !info.alternatives.isEmpty then
          resolve_alt_list info.alternatives target
        else none
      let resolved :=
        match from_alts with
        | some r => some r
        | none => resolve_field_for_issue info.id target
      match resolved with
      | some rid => some ⟨pf.name, pf.value, rid⟩
      | none => none)

/-- `DateFieldCloner._prepare_updates`: pair each compatible field with the
value to write, JSON-wrapped for a JPD target and raw otherwise.  An entry is
`(field name, (target field id, value))`. -/
def prepare_updates (compatible : List CompatibleField) (is_jpd : Bool) :
    List (String × String × List Char) :=
  compatible.map (fun cf =>
    if is_jpd then (cf.name, cf.target_id, format_for_jpd cf.value.toList)
    else (cf.name, cf.target_id, cf.value.toList))

/-- `DateFieldCloner._execute_sync` (src/jira_clone.py lines 1123-1164).
`updater key fid value` is the boolean `update_issue_field` returns for that
write.  The result is the returned success flag together with every write
attempted, in order, each with its outcome; the loop never aborts early, and
the flag is `success_count > 0`. -/
def execute_sync (updater : String → String → List Char → Bool) (target_key : String)
    (populated : List PopulatedField) (field_mapping : List (String × FieldMapEntry))
    (target : Issue) (is_jpd : Bool) :
    Bool × List ((String × String × List Char) × Bool) :=
  let compatible := resolve_target_fields populated field_mapping target is_jpd
  if compatible.isEmpty then (false, [])
  else
    let update_data := prepare_updates compatible is_jpd
    let attempts := update_data.map (fun u => (u, updater target_key u.2.1 u.2.2))
    let success_count := attempts.countP (fun a => a.2)
    (decide (0 < success_count), attempts)

/-- The status component `_clone_fields_with_status` returns. -/
inductive SyncStatus where
  | success
  | skipped
  | failed
  deriving DecidableEq, Repr

/-- The observable outcome of `_clone_fields_with_status`: the boolean result,
the status string, and every gateway write attempted during the run. -/
structure CloneOutcome where
  ok : Bool
  status : SyncStatus
  writes : List ((String × String × List Char) × Bool)
  deriving DecidableEq, Repr

/-- `DateFieldCloner._clone_fields_with_status` (src/jira_clone.py lines
1058-1094 and onward): fetch both issues (`none` models an inaccessible
issue), extract the populated fields, and either preview (dry run), stop at
the confirmation prompt (`confirm` is the interactive answer when `force` is
not set), or execute the sync.  Logging and rendering are pure output and are
not modelled. -/
def clone_fields_with_status (source_issue target_issue : Option Issue)
    (field_mapping : List (String × FieldMapEntry))
    (updater : String → String → List Char → Bool) (target_key : String)
    (confirm : Bool) (dry_run : Bool) (force : Bool) : CloneOutcome :=
  match source_issue, target_issue with
  | some src, some tgt =>
    let populated := extract_populated_fields src field_mapping
    if populated.isEmpty then ⟨false, SyncStatus.skipped, []⟩
    else if dry_run then ⟨true, SyncStatus.success, []⟩
    else if !force && !confirm then ⟨false, SyncStatus.skipped, []⟩
    else
      let result := execute_sync updater target_key populated field_mapping tgt (is_jpd_issue tgt)
      ⟨result.1, if result.1 then SyncStatus.success else SyncStatus.failed, result.2⟩
  | _, _ => ⟨false, SyncStatus.skipped, []⟩

/-- The credentials triple `ConfigManager.get_config` returns. -/
structure JiraConfig where
  url : String
  email : String
  api_token : String
  deriving DecidableEq, Repr

/-- The keys present in `jira_config.json`; a key absent from the file leaves
the default in place. -/
structure FileConfig where
  url : Option String := none
  email : Option String := none
  api_token : Option String := none
  deriving DecidableEq, Repr

/-- The hard-coded defaults at the top of `ConfigManager.get_config`. -/
def config_defaults : JiraConfig :=
  ⟨"https://your-jira-instance.atlassian.net", "", ""⟩

/-- Python truthiness of a keyring lookup: `keyring.get_password` may return
`None`, and an empty string is falsy, so neither overrides. -/
def truthy_secret (o : Option String) : Option String :=
  match o with
  | some s => if s = "" then none else some s
  | none => none

/-- `ConfigManager.get_config` (src/config_manager.py lines 24-57): start
from the defaults, apply `config.update(file_config)` key by key when the
file loads, then let each truthy keyring value override its field. -/
def get_config (file : Option FileConfig) (kc_user kc_token kc_url : Option String) :
    JiraConfig :=
  let c := config_defaults
  let c :=
    match file with
    | none => c
    | some f => ⟨(f.url).getD c.url, (f.email).getD c.email, (f.api_token).getD c.api_token⟩
  let c :=
    match truthy_secret kc_user with
    | some u => { c with email := u }
    | none => c
  let c :=
    match truthy_secret kc_token with
    | some t => { c with api_token := t }
    | none => c
  match truthy_secret kc_url with
  | some u => { c with url := u }
  | none => c

/-- `check_credentials_before_execution` (src/jira_ui.py lines 221-233): show
the "Configuration Required" error and refuse (return `false`) when the email
or the api token is falsy; otherwise install the config and proceed. -/
def check_credentials_before_execution (config : JiraConfig) : Bool :=
  !(config.email == "") && !(config.api_token == "")

/-! Theorems. -/

/-- Shared fact: because the three-argument `getattr` never raises, the
resolver's except-branches are dead and it always returns its input id. -/
theorem resolve_field_for_issue_returns_input (field_id : String) (issue : Issue) :
    resolve_field_for_issue field_id issue = some field_id := rfl

/-- C1: the claim says that resolving `customfield_10015` against an issue
that lacks it but carries its static-table partner `customfield_13039`
returns the partner, and that resolving against an issue carrying neither
returns `None`.  The code disagrees at both inputs: it returns the original
id unchanged, because `getattr(issue.fields, field_id, None)` never raises
`AttributeError` and the fallback lookup is unreachable. -/
theorem c1_resolver_always_returns_original_id :
    resolve_field_for_issue ("customfield_10015")
        ⟨"", [("customfield_13039", "2024-01-02")]⟩ = some ("customfield_10015") ∧
    some ("customfield_10015") ≠ some ("customfield_13039") ∧
    resolve_field_for_issue ("customfield_10015") ⟨"", []⟩ = some ("customfield_10015") ∧
    some ("customfield_10015") ≠ (none : Option String) := by
  refine ⟨rfl, by decide, rfl, by decide⟩

/-- C10: `update_issue_field` is a total boolean function of the outcomes of
its two steps — it propagates no exception — and it returns `true` exactly
when the issue fetch and the field update both succeed. -/
theorem c10_update_issue_field_total_boolean (fetch : Except String Issue)
    (upd : Issue → Except String Unit) :
    update_issue_field fetch upd = true ↔
      ∃ issue, fetch = Except.ok issue ∧ upd issue = Except.ok () := by
  cases fetch with
  | error e => simp [update_issue_field]
  | ok issue =>
    cases h : upd issue with
    | error e => simp [update_issue_field, h]
    | ok u => simp [update_issue_field, h]

/-- Shared fact: the trailing `Exception("Max retries exceeded")` after the
retry loop is unreachable — the loop always returns or re-raises first. -/
theorem retry_loop_never_max_exceeded (op : Nat → Except String α) :
    ∀ fuel attempt, attempt + fuel = max_retries → 0 < fuel →
      (retry_loop op attempt fuel).1 ≠ RetryResult.maxRetriesExceeded := by
  intro fuel
  induction fuel with
  | zero => intro attempt _ h; exact absurd h (by decide)
  | succ f ih =>
    intro attempt hsum _
    show (retry_loop op attempt (f + 1)).1 ≠ RetryResult.maxRetriesExceeded
    rw [retry_loop]
    cases hop : op attempt with
    | ok a => simp
    | error e =>
      simp only
      by_cases hc : is_rate_limit_error e = true ∧ attempt < max_retries - 1
      · rw [if_pos hc]
        have hf : 0 < f := by
          have h2 : attempt < max_retries - 1 := hc.2
          omega
        exact ih (attempt + 1) (by omega) hf
      · rw [if_neg hc]
        simp

/-- C4 counterexample: when every one of the three attempts fails with a
rate-limit error, `_api_call_with_retry` re-raises the wrapped call's own
error (the `raise e` on the final attempt), not a distinguishable
"max retries exceeded" failure. -/
theorem c4_exhaustion_reraises_wrapped_error_concrete :
    api_call_with_retry
        (fun _ => (Except.error ("HTTP 429 Too Many Requests") : Except String Unit)) =
      (RetryResult.raised ("HTTP 429 Too Many Requests"), 3) ∧
    (RetryResult.raised ("HTTP 429 Too Many Requests") : RetryResult Unit) ≠
      RetryResult.maxRetriesExceeded := by
  refine ⟨by decide, by decide⟩

/-- C4 amended: exhausting the three attempts on rate-limit errors re-raises
the last wrapped error after exactly three invocations, and the
"max retries exceeded" exception is unreachable for every wrapped call. -/
theorem c4_amended_exhaustion_behaviour (op : Nat → Except String α) (e0 e1 e2 : String)
    (h0 : op 0 = Except.error e0) (h1 : op 1 = Except.error e1) (h2 : op 2 = Except.error e2)
    (r0 : is_rate_limit_error e0 = true) (r1 : is_rate_limit_error e1 = true)
    (r2 : is_rate_limit_error e2 = true) :
    api_call_with_retry op = (RetryResult.raised e2, 3) ∧
    ∀ op2 : Nat → Except String α,
      (api_call_with_retry op2).1 ≠ RetryResult.maxRetriesExceeded := by
  constructor
  · show retry_loop op 0 max_retries = (RetryResult.raised e2, 3)
    rw [show max_retries = 3 from rfl]
    simp only [retry_loop, h0, h1, h2, r0, r1, r2, max_retries]
    norm_num
  · intro op2
    exact retry_loop_never_max_exceeded op2 max_retries 0 rfl (by decide)

/-- C4 amended witness at a concrete wrapped call. -/
theorem c4_amended_exhaustion_behaviour_witness :
    api_call_with_retry
        (fun _ => (Except.error ("rate limit hit") : Except String Nat)) =
      (RetryResult.raised ("rate limit hit"), 3) ∧
    ∀ op2 : Nat → Except String Nat,
      (api_call_with_retry op2).1 ≠ RetryResult.maxRetriesExceeded :=
  c4_amended_exhaustion_behaviour
    (fun _ => (Except.error ("rate limit hit") : Except String Nat))
    ("rate limit hit") ("rate limit hit") ("rate limit hit")
    rfl rfl rfl (by decide) (by decide) (by decide)

/-- C5: a wrapped call that fails with rate-limit errors on its first two
invocations and succeeds on the third ultimately returns the result after
exactly three invocations; and a wrapped call whose first failure does not
indicate rate limiting propagates immediately after a single invocation. -/
theorem c5_retry_then_success_and_immediate_propagation
    (op op2 : Nat → Except String α) (e0 e1 f : String) (a : α)
    (h0 : op 0 = Except.error e0) (h1 : op 1 = Except.error e1) (h2 : op 2 = Except.ok a)
    (r0 : is_rate_limit_error e0 = true) (r1 : is_rate_limit_error e1 = true)
    (g0 : op2 0 = Except.error f) (nf : is_rate_limit_error f = false) :
    api_call_with_retry op = (RetryResult.ok a, 3) ∧
    api_call_with_retry op2 = (RetryResult.raised f, 1) := by
  constructor
  · show retry_loop op 0 max_retries = (RetryResult.ok a, 3)
    rw [show max_retries = 3 from rfl]
    simp only [retry_loop, h0, h1, h2, r0, r1, max_retries]
    norm_num
  · show retry_loop op2 0 max_retries = (RetryResult.raised f, 1)
    rw [show max_retries = 3 from rfl]
    simp only [retry_loop, g0, nf, max_retries]
    norm_num

/-- C5 witness at concrete wrapped calls. -/
theorem c5_retry_then_success_witness :
    api_call_with_retry
        (fun n => if n = 0 then Except.error ("Rate limit reached")
                  else if n = 1 then Except.error ("HTTP 429")
                  else Except.ok 7) = (RetryResult.ok 7, 3) ∧
    api_call_with_retry (fun _ => (Except.error ("boom") : Except String Nat)) =
      (RetryResult.raised ("boom"), 1) :=
  c5_retry_then_success_and_immediate_propagation
    (fun n => if n = 0 then Except.error ("Rate limit reached")
              else if n = 1 then Except.error ("HTTP 429")
              else Except.ok 7)
    (fun _ => (Except.error ("boom") : Except String Nat))
    ("Rate limit reached") ("HTTP 429") ("boom") 7
    rfl rfl rfl (by decide) (by decide) rfl (by decide)

/-- C9 counterexample: a config whose url is empty (the file config can make
it so) but whose email and api token are set passes
`check_credentials_before_execution` — the core does not refuse to start on
an empty url, contrary to the claim. -/
theorem c9_empty_url_not_refused :
    (get_config (some ⟨some (""), none, none⟩) (some ("user@example.com"))
        (some ("token123")) none).url = "" ∧
    check_credentials_before_execution
        (get_config (some ⟨some (""), none, none⟩) (some ("user@example.com"))
          (some ("token123")) none) = true := by
  refine ⟨rfl, rfl⟩

/-- C9 amended: the core refuses to start (the credentials check returns
`false` and the operation is not run) exactly when the email or the api
token is empty; the url is not checked. -/
theorem c9_amended_refusal_iff_email_or_token_empty (config : JiraConfig) :
    check_credentials_before_execution config = false ↔
      config.email = "" ∨ config.api_token = "" := by
  simp [check_credentials_before_execution]
  tauto

/-- Shared fact: membership in the alternate-id list built by
`get_field_mapping` — every candidate whose id differs from the primary's is
listed. -/
theorem mem_alt_ids (alts : List CatalogField) (pid : String) (f : CatalogField)
    (hf : f ∈ alts) (hne : f.id ≠ pid) :
    f.id ∈ (alts.filter (fun g => g.id != pid)).map (fun g => g.id) := by
  simp only [List.mem_map, List.mem_filter, bne_iff_ne]
  exact ⟨f, ⟨hf, hne⟩, rfl⟩

/-- Shared fact: every id in the alternate-id list comes from a candidate
distinct from the primary. -/
theorem alt_ids_from_candidates (alts : List CatalogField) (pid i : String)
    (hi : i ∈ (alts.filter (fun g => g.id != pid)).map (fun g => g.id)) :
    ∃ f ∈ alts, f.id = i ∧ i ≠ pid := by
  simp only [List.mem_map, List.mem_filter, bne_iff_ne] at hi
  obtain ⟨f, ⟨hf, hne⟩, hid⟩ := hi
  exact ⟨f, hf, hid, hid ▸ hne⟩

/-- C6: when `get_field_mapping` produces an entry for a name, the primary is
the first date/datetime-typed candidate in catalog order whenever one exists
(never a non-date candidate then); when no candidate is date-typed the first
candidate in catalog order is primary; and the alternates are exactly the
ids of the other candidates. -/
theorem c6_primary_prefers_first_date_typed_candidate
    (all_fields : List CatalogField) (name : String) (entry : FieldMapEntry)
    (h : get_field_mapping_entry all_fields name = some entry) :
    ((∃ f ∈ field_alternatives_for all_fields name, is_date_type f.schema_type = true) →
      is_date_type entry.type = true ∧
      ∃ l1 l2 p, field_alternatives_for all_fields name = l1 ++ p :: l2 ∧
        p.id = entry.id ∧ p.schema_type = entry.type ∧
        ∀ f ∈ l1, is_date_type f.schema_type = false) ∧
    ((∀ f ∈ field_alternatives_for all_fields name, is_date_type f.schema_type = false) →
      (field_alternatives_for all_fields name).head?.map (fun f => f.id) = some entry.id) ∧
    (∀ f ∈ field_alternatives_for all_fields name, f.id ≠ entry.id →
      f.id ∈ entry.alternatives) ∧
    (∀ i ∈ entry.alternatives,
      ∃ f ∈ field_alternatives_for all_fields name, f.id = i ∧ i ≠ entry.id) := by
  simp only [get_field_mapping_entry] at h
  cases hdf : (field_alternatives_for all_fields name).filter
      (fun f => is_date_type f.schema_type) with
  | nil =>
    rw [hdf] at h
    simp only [List.isEmpty_nil, if_true] at h
    cases halts : (field_alternatives_for all_fields name).head? with
    | none => rw [halts] at h; simp at h
    | some p =>
      rw [halts] at h
      simp only [Option.some.injEq] at h
      subst h
      have hall : ∀ f ∈ field_alternatives_for all_fields name,
          ¬(is_date_type f.schema_type = true) := List.filter_eq_nil_iff.mp hdf
      refine ⟨?_, ?_, ?_, ?_⟩
      · rintro ⟨f, hf, hdate⟩
        exact absurd hdate (hall f hf)
      · intro _
        rfl
      · intro f hf hne
        exact mem_alt_ids _ _ f hf hne
      · intro i hi
        exact alt_ids_from_candidates _ _ i hi
  | cons p ps =>
    rw [hdf] at h
    simp only [List.isEmpty_cons, Bool.false_eq_true, if_false, List.head?_cons,
      Option.some.injEq] at h
    subst h
    obtain ⟨l1, l2, hsplit, hl1, hp, _⟩ := List.filter_eq_cons_iff.mp hdf
    refine ⟨?_, ?_, ?_, ?_⟩
    · intro _
      exact ⟨hp, l1, l2, p, hsplit, rfl, rfl,
        fun f hf => Bool.eq_false_iff.mpr (hl1 f hf)⟩
    · intro hall
      have hpmem : p ∈ field_alternatives_for all_fields name := by
        rw [hsplit]
        exact List.mem_append.mpr (Or.inr (List.mem_cons_self p l2))
      exact absurd hp (by simp [hall p hpmem])
    · intro f hf hne
      exact mem_alt_ids _ _ f hf hne
    · intro i hi
      exact alt_ids_from_candidates _ _ i hi

/-- C6 witness: a catalog in which a string-typed candidate precedes the
date-typed one for the same tracked name — the date-typed candidate is
chosen as primary. -/
theorem c6_primary_prefers_first_date_typed_candidate_witness :
    is_date_type ("date") = true ∧
    ∃ l1 l2 p, field_alternatives_for
        [⟨"customfield_12652", "PRD Due Date", true, "string"⟩,
         ⟨"customfield_11188", "PRD Due Date", true, "date"⟩] ("PRD Due Date") =
        l1 ++ p :: l2 ∧
      p.id = "customfield_11188" ∧ p.schema_type = "date" ∧
      ∀ f ∈ l1, is_date_type f.schema_type = false :=
  (c6_primary_prefers_first_date_typed_candidate
      [⟨"customfield_12652", "PRD Due Date", true, "string"⟩,
       ⟨"customfield_11188", "PRD Due Date", true, "date"⟩]
      ("PRD Due Date")
      ⟨"customfield_11188", "date", ["customfield_12652"]⟩ (by decide)).1
    ⟨⟨"customfield_11188", "PRD Due Date", true, "date"⟩, by decide, by decide⟩

/-- Shared fact: every element of a `takeWhile` satisfies the predicate. -/
theorem takeWhile_all (p : α → Bool) (l : List α) :
    ∀ x ∈ l.takeWhile p, p x = true :=
  fun _ hx => List.mem_takeWhile_imp hx

/-- Shared fact: `takeWhile p l` is the longest prefix of `l` all of whose
elements satisfy `p`. -/
theorem length_le_takeWhile_of_prefix (p : α → Bool) :
    ∀ (e l : List α), e <+: l → (∀ x ∈ e, p x = true) →
      e.length ≤ (l.takeWhile p).length := by
  intro e
  induction e with
  | nil => intro l _ _; simp
  | cons a e' ih =>
    intro l hpre hall
    obtain ⟨t, ht⟩ := hpre
    cases l with
    | nil => exact absurd ht (by simp)
    | cons b l' =>
      have hab : a = b := by
        have := congrArg (fun x => x.head?) ht
        simpa using this
      have htail : e' ++ t = l' := by
        have := congrArg (fun x => x.tail) ht
        simpa using this
      have hpa : p a = true := hall a (List.mem_cons_self a e')
      rw [List.takeWhile_cons]
      rw [← hab, if_pos hpa]
      simp only [List.length_cons, Nat.succ_le_succ_iff]
      exact ih l' ⟨t, htail⟩ (fun x hx => hall x (List.mem_cons_of_mem a hx))

/-- C7: `format_for_jpd` is exactly the `json.dumps` serialization of
`{"start": d, "end": d}` with both bounds the same normalized date `d`, and
`d` is the input truncated at the first `'T'` — the maximal `'T'`-free
prefix — or, when no `'T'` occurs, at the first space, or the whole input
when neither occurs; no other transformation is applied. -/
theorem c7_format_for_jpd_single_day_interval (v : List Char) :
    format_for_jpd v =
      py_json_dumps_start_end (format_date_string v) (format_date_string v) ∧
    format_date_string v <+: v ∧
    ('T' ∈ v → 'T' ∉ format_date_string v ∧
      ∀ e, e <+: v → 'T' ∉ e → e.length ≤ (format_date_string v).length) ∧
    ('T' ∉ v → ' ' ∈ v → ' ' ∉ format_date_string v ∧
      ∀ e, e <+: v → ' ' ∉ e → e.length ≤ (format_date_string v).length) ∧
    ('T' ∉ v → ' ' ∉ v → format_date_string v = v) := by
  refine ⟨rfl, ?_, ?_, ?_, ?_⟩
  · unfold format_date_string py_split_head
    by_cases hT : 'T' ∈ v
    · rw [if_pos hT]; exact List.takeWhile_prefix _
    · rw [if_neg hT]
      by_cases hS : ' ' ∈ v
      · rw [if_pos hS]; exact List.takeWhile_prefix _
      · rw [if_neg hS]
  · intro hT
    unfold format_date_string py_split_head
    rw [if_pos hT]
    constructor
    · intro hmem
      have := takeWhile_all (fun c => c != 'T') v 'T' hmem
      simp at this
    · intro e hpre he
      apply length_le_takeWhile_of_prefix
      · exact hpre
      · intro x hx
        have : x ≠ 'T' := fun hEq => he (hEq ▸ hx)
        simpa using this
  · intro hT hS
    unfold format_date_string py_split_head
    rw [if_neg hT, if_pos hS]
    constructor
    · intro hmem
      have := takeWhile_all (fun c => c != ' ') v ' ' hmem
      simp at this
    · intro e hpre he
      apply length_le_takeWhile_of_prefix
      · exact hpre
      · intro x hx
        have : x ≠ ' ' := fun hEq => he (hEq ▸ hx)
        simpa using this
  · intro hT hS
    unfold format_date_string
    rw [if_neg hT, if_neg hS]

/-- C7 witness: a concrete ISO datetime collapses to a single-day interval. -/
theorem c7_format_for_jpd_single_day_interval_witness :
    format_for_jpd (("2024-01-02T10:30:00".toList)) =
      py_json_dumps_start_end (format_date_string (("2024-01-02T10:30:00".toList)))
        (format_date_string (("2024-01-02T10:30:00".toList))) ∧
    format_date_string (("2024-01-02T10:30:00".toList)) <+: ("2024-01-02T10:30:00".toList) ∧
    'T' ∉ format_date_string (("2024-01-02T10:30:00".toList)) ∧
    format_for_jpd (("2024-01-02T10:30:00".toList)) =
      ("\x7b\"start\": \"2024-01-02\", \"end\": \"2024-01-02\"\x7d".toList) := by
  have h := c7_format_for_jpd_single_day_interval (("2024-01-02T10:30:00".toList))
  refine ⟨h.1, h.2.1, (h.2.2.1 (by decide)).1, by decide⟩

/-- Shared fact: a full page (exactly `max_results` items) makes the
pagination loop accumulate the page and advance `startAt` by the page
size. -/
theorem paginate_step_full (search : Nat → List String) (fuel start : Nat)
    (acc : List String) (calls : List Nat) (hlen : (search start).length = 50) :
    paginate search (fuel + 1) start acc calls =
      paginate search fuel (start + 50) (acc ++ search start) (calls ++ [start]) := by
  rw [paginate]
  have hne : (search start).isEmpty = false :=
    List.isEmpty_eq_false.mpr (fun hnil => by rw [hnil] at hlen; simp at hlen)
  simp only [hne, Bool.false_eq_true, if_false, hlen, max_results]
  norm_num

/-- Shared fact: a short page ends the pagination loop after accumulating
it. -/
theorem paginate_step_short (search : Nat → List String) (fuel start : Nat)
    (acc : List String) (calls : List Nat) (hlen : (search start).length = 17) :
    paginate search (fuel + 1) start acc calls =
      some (acc ++ search start, calls ++ [start]) := by
  rw [paginate]
  have hne : (search start).isEmpty = false :=
    List.isEmpty_eq_false.mpr (fun hnil => by rw [hnil] at hlen; simp at hlen)
  simp only [hne, Bool.false_eq_true, if_false, hlen, max_results]
  norm_num

/-- C8: when the search returns pages of 50, 50 and 17 items at offsets 0,
50 and 100, `get_jpd_ideas_in_project` issues exactly three search calls,
with `startAt` advancing by 50 per page, stops after the short page, and
returns the 117 collected issue keys. -/
theorem c8_pagination_three_pages (search : Nat → List String) (k : Nat)
    (h0 : (search 0).length = 50) (h1 : (search 50).length = 50)
    (h2 : (search 100).length = 17) :
    get_jpd_ideas_in_project search (k + 3) =
      some (search 0 ++ search 50 ++ search 100, [0, 50, 100]) ∧
    (search 0 ++ search 50 ++ search 100).length = 117 := by
  constructor
  · show paginate search (k + 1 + 1 + 1) 0 [] [] = _
    rw [paginate_step_full search (k + 1 + 1) 0 [] [] h0]
    norm_num
    rw [paginate_step_full search (k + 1) 50 (search 0) [0] h1]
    norm_num
    rw [paginate_step_short search k 100 (search 0 ++ search 50) [0, 50] h2]
    simp [List.append_assoc]
  · simp [List.length_append, h0, h1, h2]

/-- C8 witness: a concrete three-page search. -/
theorem c8_pagination_three_pages_witness :
    get_jpd_ideas_in_project
        (fun start => if start = 0 then List.replicate 50 ("a")
                      else if start = 50 then List.replicate 50 ("b")
                      else if start = 100 then List.replicate 17 ("c")
                      else []) (2 + 3) =
      some (List.replicate 50 ("a") ++ List.replicate 50 ("b") ++ List.replicate 17 ("c"),
        [0, 50, 100]) ∧
    (List.replicate 50 ("a") ++ List.replicate 50 ("b") ++
      List.replicate 17 ("c")).length = 117 := by
  have h := c8_pagination_three_pages
    (fun start => if start = 0 then List.replicate 50 ("a")
                  else if start = 50 then List.replicate 50 ("b")
                  else if start = 100 then List.replicate 17 ("c")
                  else []) 2 (by decide) (by decide) (by decide)
  exact ⟨h.1, h.2⟩

/-- C2: a dry-run sync issues zero gateway writes on every input, and when
both issues are accessible and at least one tracked field is populated on
the source, the dry run terminates with the boolean result `true` and the
status `success`. -/
theorem c2_dry_run_no_writes_and_success (source target : Option Issue)
    (fm : List (String × FieldMapEntry)) (updater : String → String → List Char → Bool)
    (key : String) (confirm force : Bool) :
    (clone_fields_with_status source target fm updater key confirm true force).writes = [] ∧
    (∀ src tgt, source = some src → target = some tgt →
      extract_populated_fields src fm ≠ [] →
      (clone_fields_with_status source target fm updater key confirm true force).ok = true ∧
      (clone_fields_with_status source target fm updater key confirm true force).status =
        SyncStatus.success) := by
  cases source with
  | none =>
    cases target with
    | none => exact ⟨rfl, fun src tgt hs _ _ => by cases hs⟩
    | some tgt => exact ⟨rfl, fun src tgt' hs _ _ => by cases hs⟩
  | some src =>
    cases target with
    | none => exact ⟨rfl, fun src' tgt _ ht _ => by cases ht⟩
    | some tgt =>
      by_cases hp : (extract_populated_fields src fm).isEmpty
      · constructor
        · simp [clone_fields_with_status, hp]
        · intro src' tgt' hs ht hne
          obtain rfl : src = src' := by injection hs
          exact absurd (List.isEmpty_iff.mp hp) hne
      · constructor
        · simp [clone_fields_with_status, hp]
        · intro src' tgt' hs ht hne
          constructor <;> simp [clone_fields_with_status, hp]

/-- C2 witness: one populated tracked field, dry run — no writes, status
`success`. -/
theorem c2_dry_run_no_writes_and_success_witness :
    (clone_fields_with_status (some ⟨"Task", [("customfield_10015", "2024-01-01")]⟩)
        (some ⟨"Idea", []⟩) [("Start date", ⟨"customfield_10015", "date", []⟩)]
        (fun _ _ _ => true) ("IDEA-1") false true false).writes = [] ∧
    (clone_fields_with_status (some ⟨"Task", [("customfield_10015", "2024-01-01")]⟩)
        (some ⟨"Idea", []⟩) [("Start date", ⟨"customfield_10015", "date", []⟩)]
        (fun _ _ _ => true) ("IDEA-1") false true false).ok = true ∧
    (clone_fields_with_status (some ⟨"Task", [("customfield_10015", "2024-01-01")]⟩)
        (some ⟨"Idea", []⟩) [("Start date", ⟨"customfield_10015", "date", []⟩)]
        (fun _ _ _ => true) ("IDEA-1") false true false).status = SyncStatus.success := by
  have h := c2_dry_run_no_writes_and_success
    (some ⟨"Task", [("customfield_10015", "2024-01-01")]⟩) (some ⟨"Idea", []⟩)
    [("Start date", ⟨"customfield_10015", "date", []⟩)]
    (fun _ _ _ => true) ("IDEA-1") false false
  exact ⟨h.1, (h.2 _ _ rfl rfl (by decide)).1, (h.2 _ _ rfl rfl (by decide)).2⟩

/-- C3: once the apply step is reached with at least one resolved field,
every resolved field's write is attempted regardless of the other writes'
outcomes, and the overall result is `true` exactly when at least one of the
independent per-field update calls succeeds. -/
theorem c3_partial_success_counts_as_success
    (updater : String → String → List Char → Bool) (key : String)
    (populated : List PopulatedField) (fm : List (String × FieldMapEntry))
    (target : Issue) (is_jpd : Bool)
    (h : resolve_target_fields populated fm target is_jpd ≠ []) :
    ((execute_sync updater key populated fm target is_jpd).2.map (fun w => w.1) =
      prepare_updates (resolve_target_fields populated fm target is_jpd) is_jpd) ∧
    ((execute_sync updater key populated fm target is_jpd).1 = true ↔
      ∃ w ∈ (execute_sync updater key populated fm target is_jpd).2, w.2 = true) := by
  have hne : (resolve_target_fields populated fm target is_jpd).isEmpty = false :=
    List.isEmpty_eq_false.mpr h
  simp only [execute_sync, hne, Bool.false_eq_true, if_false]
  constructor
  · simp [List.map_map, Function.comp_def]
  · simp only [decide_eq_true_eq]
    exact List.countP_pos_iff

/-- C3 witness: three resolved fields with exactly one failing write — all
three writes are attempted and the overall outcome is success. -/
theorem c3_partial_success_counts_as_success_witness :
    ((execute_sync (fun _ fid _ => fid != "customfield_11188") ("AV-1")
        [⟨"Start date", "2024-01-01", "customfield_10015", "date"⟩,
         ⟨"PRD Due Date", "2024-02-01", "customfield_11188", "date"⟩,
         ⟨"GA Estimated Date", "2024-03-01", "customfield_10071", "date"⟩]
        [("Start date", ⟨"customfield_10015", "date", []⟩),
         ("PRD Due Date", ⟨"customfield_11188", "date", []⟩),
         ("GA Estimated Date", ⟨"customfield_10071", "date", []⟩)]
        ⟨"Task", []⟩ false).2.map (fun w => w.1) =
      prepare_updates (resolve_target_fields
        [⟨"Start date", "2024-01-01", "customfield_10015", "date"⟩,
         ⟨"PRD Due Date", "2024-02-01", "customfield_11188", "date"⟩,
         ⟨"GA Estimated Date", "2024-03-01", "customfield_10071", "date"⟩]
        [("Start date", ⟨"customfield_10015", "date", []⟩),
         ("PRD Due Date", ⟨"customfield_11188", "date", []⟩),
         ("GA Estimated Date", ⟨"customfield_10071", "date", []⟩)]
        ⟨"Task", []⟩ false) false) ∧
    ((execute_sync (fun _ fid _ => fid != "customfield_11188") ("AV-1")
        [⟨"Start date", "2024-01-01", "customfield_10015", "date"⟩,
         ⟨"PRD Due Date", "2024-02-01", "customfield_11188", "date"⟩,
         ⟨"GA Estimated Date", "2024-03-01", "customfield_10071", "date"⟩]
        [("Start date", ⟨"customfield_10015", "date", []⟩),
         ("PRD Due Date", ⟨"customfield_11188", "date", []⟩),
         ("GA Estimated Date", ⟨"customfield_10071", "date", []⟩)]
        ⟨"Task", []⟩ false).1 = true ↔
      ∃ w ∈ (execute_sync (fun _ fid _ => fid != "customfield_11188") ("AV-1")
        [⟨"Start date", "2024-01-01", "customfield_10015", "date"⟩,
         ⟨"PRD Due Date", "2024-02-01", "customfield_11188", "date"⟩,
         ⟨"GA Estimated Date", "2024-03-01", "customfield_10071", "date"⟩]
        [("Start date", ⟨"customfield_10015", "date", []⟩),
         ("PRD Due Date", ⟨"customfield_11188", "date", []⟩),
         ("GA Estimated Date", ⟨"customfield_10071", "date", []⟩)]
        ⟨"Task", []⟩ false).2, w.2 = true) ∧
    (execute_sync (fun _ fid _ => fid != "customfield_11188") ("AV-1")
        [⟨"Start date", "2024-01-01", "customfield_10015", "date"⟩,
         ⟨"PRD Due Date", "2024-02-01", "customfield_11188", "date"⟩,
         ⟨"GA Estimated Date", "2024-03-01", "customfield_10071", "date"⟩]
        [("Start date", ⟨"customfield_10015", "date", []⟩),
         ("PRD Due Date", ⟨"customfield_11188", "date", []⟩),
         ("GA Estimated Date", ⟨"customfield_10071", "date", []⟩)]
        ⟨"Task", []⟩ false).1 = true ∧
    (execute_sync (fun _ fid _ => fid != "customfield_11188") ("AV-1")
        [⟨"Start date", "2024-01-01", "customfield_10015", "date"⟩,
         ⟨"PRD Due Date", "2024-02-01", "customfield_11188", "date"⟩,
         ⟨"GA Estimated Date", "2024-03-01", "customfield_10071", "date"⟩]
        [("Start date", ⟨"customfield_10015", "date", []⟩),
         ("PRD Due Date", ⟨"customfield_11188", "date", []⟩),
         ("GA Estimated Date", ⟨"customfield_10071", "date", []⟩)]
        ⟨"Task", []⟩ false).2.countP (fun w => !w.2) = 1 := by
  have h := c3_partial_success_counts_as_success
    (fun _ fid _ => fid != "customfield_11188") ("AV-1")
    [⟨"Start date", "2024-01-01", "customfield_10015", "date"⟩,
     ⟨"PRD Due Date", "2024-02-01", "customfield_11188", "date"⟩,
     ⟨"GA Estimated Date", "2024-03-01", "customfield_10071", "date"⟩]
    [("Start date", ⟨"customfield_10015", "date", []⟩),
     ("PRD Due Date", ⟨"customfield_11188", "date", []⟩),
     ("GA Estimated Date", ⟨"customfield_10071", "date", []⟩)]
    ⟨"Task", []⟩ false (by decide)
  exact ⟨h.1, h.2, by decide, by decide⟩

/-- C9 amended witness: an empty email is refused. -/
theorem c9_amended_refusal_witness :
    check_credentials_before_execution ⟨"https://jira.example.com", "", "tok"⟩ = false :=
  (c9_amended_refusal_iff_email_or_token_empty
    ⟨"https://jira.example.com", "", "tok"⟩).mpr (Or.inl rfl)

/-- C10 witness: a successful fetch and update yields `true`. -/
theorem c10_update_issue_field_total_boolean_witness :
    update_issue_field (Except.ok ⟨"Task", []⟩) (fun _ => Except.ok ()) = true :=
  (c10_update_issue_field_total_boolean (Except.ok ⟨"Task", []⟩)
    (fun _ => Except.ok ())).mpr ⟨⟨"Task", []⟩, rfl, rfl⟩

end JiraSync
